import Mathlib

/-!
Verification of the EPC zip-to-parquet conversion pipeline (`epc.py`).

The development shallowly embeds the three components of the pipeline:

* `open_files` — enumerates zip-archive members matching a glob pattern
  (`fnmatch` semantics for the constructs the repository uses: `*`, `?`,
  literal characters);
* `csv_to_parquet` — parses one delimited-text stream into a typed columnar
  table using per-column type overrides (pyarrow `read_csv` with
  `ConvertOptions(column_types=...)`), falling back to whole-column type
  inference for unlisted columns, and serializes the table to a parquet file;
* `convert_files` — the orchestrator: creates the output directory, then for
  each matching member in sequence writes `part-NNN.parquet` with a dense,
  zero-padded part index.

CSV byte streams are modelled after delimiting as a header row plus data rows
of text fields; float64 cell values are modelled exactly as rationals
(together with `inf`/`nan` spellings accepted by the underlying parser), which
is faithful for the decimal literals the pipeline's data contains.  The
filesystem is modelled as a map from paths to directory flags and parquet
file contents; parquet serialization is modelled as an injective wrapper whose
read-back is the identity on the logical table, reflecting that parquet
encoding choices must not alter the logical column values or types.
-/

namespace Epc

/-- Decidable equality of `Except` results, for evaluating the embedded
fallible operations on concrete inputs. -/
instance {ε α : Type} [DecidableEq ε] [DecidableEq α] : DecidableEq (Except ε α) := by
  intro a b
  cases a with
  | error e =>
    cases b with
    | error f => exact decidable_of_iff (e = f) (by simp)
    | ok y => exact isFalse (by simp)
  | ok x =>
    cases b with
    | error f => exact isFalse (by simp)
    | ok y => exact decidable_of_iff (x = y) (by simp)

/-- The closed set of declared column types used by the schemas
(`pyarrow.string()`, `pyarrow.int64()`, `pyarrow.float64()`,
`pyarrow.date32()`, `pyarrow.timestamp("s")`), together with the
`bool` and `null` types that pyarrow's CSV type inference can produce
for non-overridden columns. -/
inductive ColType
  | string
  | int64
  | float64
  | date32
  | timestampS
  | bool
  | null
deriving DecidableEq, Repr

/-- A parsed float64 cell: an exact finite decimal value `mant / 10 ^ scale`
(kept canonical: trailing factors of ten are stripped from the mantissa), an
infinity, or a not-a-number, as produced by the CSV float parser. -/
inductive FloatVal
  | finite (mant : ℤ) (scale : ℕ)
  | inf
  | negInf
  | nan
deriving DecidableEq, Repr

/-- Strip common factors of ten from a decimal representation
`m / 10 ^ s`, yielding its canonical form. -/
def canonDec (m : ℤ) : ℕ → ℤ × ℕ
  | 0 => (m, 0)
  | s + 1 => if m % 10 = 0 then canonDec (m / 10) s else (m, s + 1)

/-- The rational value of a finite decimal representation. -/
def decValue (m : ℤ) (s : ℕ) : ℚ := (m : ℚ) / (10 : ℚ) ^ s

/-- One typed cell value of a parsed column. -/
inductive Value
  | null
  | str (s : String)
  | int (i : ℤ)
  | float (f : FloatVal)
  | boolean (b : Bool)
  | date (y m d : ℕ)
  | timestamp (y mo d h mi s : ℕ)
deriving DecidableEq, Repr

/-- The value of a run of decimal digit characters. -/
def digitsToNat (ds : List Char) : ℕ :=
  ds.foldl (fun a c => a * 10 + (c.toNat - '0'.toNat)) 0

/-- Parse a cell as a 64-bit integer: optional sign, decimal digits, with
the int64 range check the CSV integer converter performs. -/
def parseInt64 (s : String) : Option ℤ :=
  let cs := s.data
  let p : Bool × List Char :=
    match cs with
    | '-' :: rest => (true, rest)
    | '+' :: rest => (false, rest)
    | _ => (false, cs)
  if p.2 ≠ [] ∧ p.2.all Char.isDigit then
    let n : ℤ := digitsToNat p.2
    let v : ℤ := if p.1 then -n else n
    if -(2 ^ 63) ≤ v ∧ v < 2 ^ 63 then some v else none
  else none

/-- Lower-case every character of a string. -/
def toLowerStr (s : String) : String :=
  String.mk (s.data.map Char.toLower)

/-- Parse an unsigned decimal literal `digits[.digits][(e|E)[+-]digits]`
(at least one digit overall) into an exact rational, the float64 cell
grammar of the CSV float converter. -/
def parseDecimal (neg : Bool) (cs : List Char) : Option FloatVal :=
  let mantExp := cs.span (fun c => c ≠ 'e' ∧ c ≠ 'E')
  let expVal : Option ℤ :=
    match mantExp.2 with
    | [] => some 0
    | _ :: rest =>
      let ep : Bool × List Char :=
        match rest with
        | '-' :: r => (true, r)
        | '+' :: r => (false, r)
        | _ => (false, rest)
      if ep.2 ≠ [] ∧ ep.2.all Char.isDigit then
        some (if ep.1 then -(digitsToNat ep.2 : ℤ) else (digitsToNat ep.2 : ℤ))
      else none
  match expVal with
  | none => none
  | some e =>
    let ipFp := mantExp.1.span (fun c => c ≠ '.')
    let fp : List Char :=
      match ipFp.2 with
      | [] => []
      | _ :: r => r
    if (ipFp.1 ++ fp).all Char.isDigit ∧ (ipFp.1 ≠ [] ∨ fp ≠ []) then
      let d : ℤ := (digitsToNat (ipFp.1 ++ fp) : ℤ)
      let ds : ℤ := if neg then -d else d
      let rep : ℤ × ℕ :=
        match e with
        | .ofNat k => (ds * (10 : ℤ) ^ k, fp.length)
        | .negSucc k => (ds, fp.length + (k + 1))
      let c := canonDec rep.1 rep.2
      some (.finite c.1 c.2)
    else none

/-- Parse a cell as a float64: optional sign, then an `inf`/`infinity`/`nan`
spelling (case-insensitive) or a decimal literal. -/
def parseFloat64 (s : String) : Option FloatVal :=
  let cs := s.data
  let p : Bool × List Char :=
    match cs with
    | '-' :: rest => (true, rest)
    | '+' :: rest => (false, rest)
    | _ => (false, cs)
  let low := toLowerStr (String.mk p.2)
  if low = "inf" ∨ low = "infinity" then some (if p.1 then .negInf else .inf)
  else if low = "nan" then some .nan
  else parseDecimal p.1 p.2

/-- Parse a cell as a calendar date in the fixed `YYYY-MM-DD` text format. -/
def parseDate32 (s : String) : Option (ℕ × ℕ × ℕ) :=
  match s.data with
  | [y1, y2, y3, y4, '-', m1, m2, '-', d1, d2] =>
    if [y1, y2, y3, y4, m1, m2, d1, d2].all Char.isDigit then
      let y := digitsToNat [y1, y2, y3, y4]
      let mo := digitsToNat [m1, m2]
      let d := digitsToNat [d1, d2]
      if 1 ≤ mo ∧ mo ≤ 12 ∧ 1 ≤ d ∧ d ≤ 31 then some (y, mo, d) else none
    else none
  | _ => none

/-- Parse a cell as a second-resolution timestamp: a `YYYY-MM-DD` date,
optionally followed by `HH:MM:SS` separated by a space or `T`. -/
def parseTimestampS (s : String) : Option (ℕ × ℕ × ℕ × ℕ × ℕ × ℕ) :=
  match parseDate32 s with
  | some (y, mo, d) => some (y, mo, d, 0, 0, 0)
  | none =>
    match s.data with
    | [y1, y2, y3, y4, '-', m1, m2, '-', d1, d2, sep, h1, h2, ':', n1, n2, ':', s1, s2] =>
      if (sep = ' ' ∨ sep = 'T') ∧
          [y1, y2, y3, y4, m1, m2, d1, d2, h1, h2, n1, n2, s1, s2].all Char.isDigit then
        let y := digitsToNat [y1, y2, y3, y4]
        let mo := digitsToNat [m1, m2]
        let d := digitsToNat [d1, d2]
        let h := digitsToNat [h1, h2]
        let mi := digitsToNat [n1, n2]
        let se := digitsToNat [s1, s2]
        if 1 ≤ mo ∧ mo ≤ 12 ∧ 1 ≤ d ∧ d ≤ 31 ∧ h ≤ 23 ∧ mi ≤ 59 ∧ se ≤ 59 then
          some (y, mo, d, h, mi, se)
        else none
      else none
    | _ => none

/-- The default `null_values` sentinel list of pyarrow's CSV
`ConvertOptions`: these spellings denote a null in any non-string column. -/
def NULL_VALUES : List String :=
  ["", "#N/A", "#N/A N/A", "#NA", "-1.#IND", "-1.#QNAN", "-NaN", "-nan",
   "1.#IND", "1.#QNAN", "N/A", "NA", "NULL", "NaN", "n/a", "nan", "null"]

/-- The default `true_values` of pyarrow's CSV `ConvertOptions`. -/
def TRUE_VALUES : List String := ["1", "True", "TRUE", "true"]

/-- The default `false_values` of pyarrow's CSV `ConvertOptions`. -/
def FALSE_VALUES : List String := ["0", "False", "FALSE", "false"]

/-- Convert one text cell to the given column type.  String columns keep the
raw text unchanged (`strings_can_be_null` defaults to false); other columns
first map null sentinels to null, then apply the type's parser; `none` is a
conversion failure. -/
def parseCell (t : ColType) (cell : String) : Option Value :=
  match t with
  | .string => some (.str cell)
  | .int64 =>
    if NULL_VALUES.contains cell then some .null else (parseInt64 cell).map .int
  | .float64 =>
    if NULL_VALUES.contains cell then some .null else (parseFloat64 cell).map .float
  | .date32 =>
    if NULL_VALUES.contains cell then some .null
    else (parseDate32 cell).map (fun p => .date p.1 p.2.1 p.2.2)
  | .timestampS =>
    if NULL_VALUES.contains cell then some .null
    else (parseTimestampS cell).map (fun p => .timestamp p.1 p.2.1 p.2.2.1 p.2.2.2.1 p.2.2.2.2.1 p.2.2.2.2.2)
  | .bool =>
    if NULL_VALUES.contains cell then some .null
    else if TRUE_VALUES.contains cell then some (.boolean true)
    else if FALSE_VALUES.contains cell then some (.boolean false)
    else none
  | .null =>
    if NULL_VALUES.contains cell then some .null else none

/-- One named, homogeneously typed column of a parsed table. -/
structure Column where
  name : String
  type : ColType
  values : List Value
deriving DecidableEq, Repr

/-- A parsed table: an ordered sequence of named, typed columns. -/
abbrev Table := List Column

/-- A CSV byte stream after delimiting: the header row of column names
followed by the data rows of text fields. -/
structure CsvData where
  header : List String
  rows : List (List String)
deriving DecidableEq, Repr

/-- The candidate types pyarrow's CSV type inference tries, in order, for a
column with no override; `string` is the universal fallback. -/
def INFER_ORDER : List ColType :=
  [.null, .int64, .bool, .date32, .timestampS, .float64, .string]

/-- Infer a column's type from its observed values: the first candidate type
under which every cell converts governs the whole column, with `string` as
the universal fallback. -/
def inferColumn (name : String) (cells : List String) : Column :=
  match INFER_ORDER.find? (fun t => cells.all (fun c => (parseCell t c).isSome)) with
  | some t => ⟨name, t, cells.map (fun c => (parseCell t c).getD (.str c))⟩
  | none => ⟨name, .string, cells.map .str⟩

/-- Errors raised by CSV parsing: a data row whose field count differs from
the header's, or a cell in an overridden column that cannot be coerced to the
declared type (named with the offending column and value). -/
inductive ParseError
  | raggedRow
  | typeMismatch (column : String) (value : String)
deriving DecidableEq, Repr

/-- The cells of column `j`, in row order. -/
def columnCells (csv : CsvData) (j : ℕ) : List String :=
  csv.rows.map (fun r => r.getD j "")

/-- Coerce every cell of a column to the declared type; the first failing
cell aborts the file with a `typeMismatch` naming the column. -/
def convertCells (name : String) (t : ColType) : List String → Except ParseError (List Value)
  | [] => .ok []
  | c :: cs =>
    match parseCell t c with
    | none => .error (.typeMismatch name c)
    | some v =>
      match convertCells name t cs with
      | .error e => .error e
      | .ok vs => .ok (v :: vs)

/-- Convert one column: if an override declares its type, every cell must
coerce to that type (a failing cell aborts the file with a `typeMismatch`
naming the column); otherwise the type is inferred. -/
def convertColumn (name : String) (cells : List String) (ot : Option ColType) :
    Except ParseError Column :=
  match ot with
  | none => .ok (inferColumn name cells)
  | some t =>
    match convertCells name t cells with
    | .ok vs => .ok ⟨name, t, vs⟩
    | .error e => .error e

/-- Convert the header columns left to right, starting at column index `j`. -/
def readColumns (csv : CsvData) (column_types : List (String × ColType)) :
    ℕ → List String → Except ParseError Table
  | _, [] => .ok []
  | j, name :: rest =>
    match convertColumn name (columnCells csv j) (List.lookup name column_types) with
    | .error e => .error e
    | .ok col =>
      match readColumns csv column_types (j + 1) rest with
      | .error e => .error e
      | .ok cols => .ok (col :: cols)

/-- Model of `pyarrow.csv.read_csv` with `ConvertOptions(column_types=...)`: checks
rows are rectangular, then converts each header column in order, using the
override for columns named in `column_types` and inference for the rest.
Override keys that name no header column are never consulted. -/
def read_csv (csv : CsvData) (column_types : List (String × ColType)) :
    Except ParseError Table :=
  if csv.rows.all (fun r => r.length = csv.header.length) then
    readColumns csv column_types 0 csv.header
  else .error .raggedRow

/-- A written parquet file.  Its logical content is exactly the serialized
table: the encoding (dictionary compression etc.) must not alter the column
names, types or values observable on read-back. -/
structure ParquetFile where
  table : Table
deriving DecidableEq, Repr

/-- Model of `pyarrow.parquet.write_table`: serialize a table to parquet bytes. -/
def write_table (t : Table) : ParquetFile := ⟨t⟩

/-- Model of `pyarrow.parquet.read_table`: read the logical table back from a
parquet file. -/
def read_table (f : ParquetFile) : Table := f.table

/-- Glob matching over character lists, the `fnmatch` semantics for the
constructs this repository's patterns use: `*` matches any run of characters
including path separators, `?` matches exactly one character, every other
character matches itself.  (POSIX `fnmatch.fnmatch` does no case folding.) -/
def globMatch : List Char → List Char → Bool
  | [], s => s.isEmpty
  | '*' :: ps, s => s.tails.any (fun t => globMatch ps t)
  | '?' :: ps, s =>
    match s with
    | [] => false
    | _ :: cs => globMatch ps cs
  | ch :: ps, s =>
    match s with
    | [] => false
    | c :: cs => ch = c && globMatch ps cs

/-- Model of `fnmatch.fnmatch(filename, pattern)`. -/
def fnmatch (filename pattern : String) : Bool :=
  globMatch pattern.data filename.data

/-- The possible states of the archive input: a readable, structurally valid
zip container with its members in listing order (each member a named CSV byte
stream), or anything that is not one. -/
inductive ZipSource
  | valid (members : List (String × CsvData))
  | invalid
deriving DecidableEq, Repr

/-- The I/O failure raised when the input is not a valid zip container
(`zipfile.BadZipFile`). -/
inductive IOError
  | badZipFile
deriving DecidableEq, Repr

/-- Model of `open_files(epc_zipfile, pattern)`: open the zip, list its members once,
and yield a readable stream for every member whose full internal path matches
the pattern, in listing order.  Opening an invalid container fails before any
member is yielded; a pattern matching nothing yields the empty sequence. -/
def open_files (epc_zipfile : ZipSource) (pattern : String) :
    Except IOError (List (String × CsvData)) :=
  match epc_zipfile with
  | .invalid => .error .badZipFile
  | .valid members => .ok (members.filter (fun m => fnmatch m.1 pattern))

/-- The filesystem visible to the pipeline: which directories exist and
which parquet files exist with what content. -/
@[ext]
structure FS where
  dirs : String → Bool
  files : String → Option ParquetFile

/-- Split a character list on `/`. -/
def splitOnSlash : List Char → List (List Char)
  | [] => [[]]
  | c :: rest =>
    let r := splitOnSlash rest
    if c = '/' then [] :: r
    else
      match r with
      | [] => [[c]]
      | g :: gs => (c :: g) :: gs

/-- The directory path together with each of its ancestors (the joins of the
successive nonempty prefixes of its `/`-separated components). -/
def pathAncestors (p : String) : List String :=
  let comps := splitOnSlash p.data
  (List.range comps.length).map
    (fun i => String.mk (List.intercalate ['/'] (comps.take (i + 1))))

/-- Model of `os.makedirs(path, exist_ok=True)`: create the directory and any missing
ancestors; succeed silently when they already exist. -/
def makedirs (path : String) (fs : FS) : FS :=
  { fs with dirs := fun d => d = path || (pathAncestors path).contains d || fs.dirs d }

/-- Write (or overwrite) one file. -/
def writeFile (path : String) (f : ParquetFile) (fs : FS) : FS :=
  { fs with files := fun q => if q = path then some f else fs.files q }

/-- Model of `os.path.join` for the relative part names this pipeline produces. -/
def pathJoin (a b : String) : String :=
  if a = "" then b
  else if a.data.getLast? = some '/' then a ++ b
  else a ++ "/" ++ b

/-- Model of `csv_to_parquet(csv_file, parquet_file, column_types)`: parse the CSV
stream with the given overrides (`column_types or {}`), then serialize the
table to the parquet path.  A parse failure propagates and nothing is
written. -/
def csv_to_parquet (csv_file : CsvData) (parquet_file : String)
    (column_types : Option (List (String × ColType))) (fs : FS) :
    Except ParseError FS :=
  match read_csv csv_file (column_types.getD []) with
  | .error e => .error e
  | .ok table => .ok (writeFile parquet_file (write_table table) fs)

/-- Python's format specifier `03` applied to a part number: the decimal
form of `n` left-padded with zeros to at least three digits. -/
def pad3 (n : ℕ) : String :=
  let s := toString n
  String.mk (List.replicate (3 - s.length) '0') ++ s

/-- The output path of part number `n`: `output_path/part-NNN.parquet`. -/
def partPath (output_path : String) (n : ℕ) : String :=
  pathJoin output_path ("part-" ++ pad3 n ++ ".parquet")

/-- A failure aborting a conversion run. -/
inductive RunError
  | ioError (e : IOError)
  | parseError (e : ParseError)
deriving DecidableEq, Repr

/-- The loop body of `convert_files`: for each member in sequence, convert it
to the next part path and print a progress line; the first failure aborts the
run, leaving the filesystem as it was after the last successful part. -/
def convertLoop (schema : Option (List (String × ColType))) (output_path : String) :
    List (String × CsvData) → ℕ → FS → FS × List String × Except RunError Unit
  | [], _, fs => (fs, [], .ok ())
  | (_, csv) :: rest, part_number, fs =>
    let parquet_file_path := partPath output_path part_number
    match csv_to_parquet csv parquet_file_path schema fs with
    | .error e => (fs, [], .error (.parseError e))
    | .ok fs' =>
      let r := convertLoop schema output_path rest (part_number + 1) fs'
      (r.1, ("Written " ++ parquet_file_path) :: r.2.1, r.2.2)

/-- Model of `convert_files(epc_zipfile, file_pattern, schema, output_path)`: create
the output directory, then enumerate the matching archive members and convert
each to a sequentially numbered parquet part.  `open_files` is a generator,
so the directory is created before the archive is first opened; an invalid
archive therefore fails after the directory exists but before any part is
written. -/
def convert_files (epc_zipfile : ZipSource) (file_pattern : String)
    (schema : Option (List (String × ColType))) (output_path : String) (fs : FS) :
    FS × List String × Except RunError Unit :=
  let fs := makedirs output_path fs
  match open_files epc_zipfile file_pattern with
  | .error e => (fs, [], .error (.ioError e))
  | .ok files => convertLoop schema output_path files 0 fs

/-- The hand-maintained column-type override table for the certificates
dataset, in source order. -/
def CERTIFICATE_SCHEMA : List (String × ColType) :=
  [("LMK_KEY", ColType.string),
   ("ADDRESS1", ColType.string),
   ("ADDRESS2", ColType.string),
   ("ADDRESS3", ColType.string),
   ("POSTCODE", ColType.string),
   ("BUILDING_REFERENCE_NUMBER", ColType.int64),
   ("CURRENT_ENERGY_RATING", ColType.string),
   ("POTENTIAL_ENERGY_RATING", ColType.string),
   ("CURRENT_ENERGY_EFFICIENCY", ColType.int64),
   ("POTENTIAL_ENERGY_EFFICIENCY", ColType.int64),
   ("PROPERTY_TYPE", ColType.string),
   ("BUILT_FORM", ColType.string),
   ("INSPECTION_DATE", ColType.date32),
   ("LOCAL_AUTHORITY", ColType.string),
   ("CONSTITUENCY", ColType.string),
   ("COUNTY", ColType.string),
   ("LODGEMENT_DATE", ColType.date32),
   ("TRANSACTION_TYPE", ColType.string),
   ("ENVIRONMENT_IMPACT_CURRENT", ColType.float64),
   ("ENVIRONMENT_IMPACT_POTENTIAL", ColType.float64),
   ("ENERGY_CONSUMPTION_CURRENT", ColType.float64),
   ("ENERGY_CONSUMPTION_POTENTIAL", ColType.float64),
   ("CO2_EMISSIONS_CURRENT", ColType.float64),
   ("CO2_EMISS_CURR_PER_FLOOR_AREA", ColType.float64),
   ("CO2_EMISSIONS_POTENTIAL", ColType.float64),
   ("LIGHTING_COST_CURRENT", ColType.float64),
   ("LIGHTING_COST_POTENTIAL", ColType.float64),
   ("HEATING_COST_CURRENT", ColType.float64),
   ("HEATING_COST_POTENTIAL", ColType.float64),
   ("HOT_WATER_COST_CURRENT", ColType.float64),
   ("HOT_WATER_COST_POTENTIAL", ColType.float64),
   ("TOTAL_FLOOR_AREA", ColType.float64),
   ("ENERGY_TARIFF", ColType.string),
   ("MAINS_GAS_FLAG", ColType.string),
   ("FLOOR_LEVEL", ColType.string),
   ("FLAT_TOP_STOREY", ColType.string),
   ("FLAT_STOREY_COUNT", ColType.int64),
   ("MAIN_HEATING_CONTROLS", ColType.string),
   ("MULTI_GLAZE_PROPORTION", ColType.float64),
   ("GLAZED_TYPE", ColType.string),
   ("GLAZED_AREA", ColType.string),
   ("EXTENSION_COUNT", ColType.float64),
   ("NUMBER_HABITABLE_ROOMS", ColType.float64),
   ("NUMBER_HEATED_ROOMS", ColType.float64),
   ("LOW_ENERGY_LIGHTING", ColType.int64),
   ("NUMBER_OPEN_FIREPLACES", ColType.int64),
   ("HOTWATER_DESCRIPTION", ColType.string),
   ("HOT_WATER_ENERGY_EFF", ColType.string),
   ("HOT_WATER_ENV_EFF", ColType.string),
   ("FLOOR_DESCRIPTION", ColType.string),
   ("FLOOR_ENERGY_EFF", ColType.string),
   ("FLOOR_ENV_EFF", ColType.string),
   ("WINDOWS_DESCRIPTION", ColType.string),
   ("WINDOWS_ENERGY_EFF", ColType.string),
   ("WINDOWS_ENV_EFF", ColType.string),
   ("WALLS_DESCRIPTION", ColType.string),
   ("WALLS_ENERGY_EFF", ColType.string),
   ("WALLS_ENV_EFF", ColType.string),
   ("SECONDHEAT_DESCRIPTION", ColType.string),
   ("SHEATING_ENERGY_EFF", ColType.string),
   ("SHEATING_ENV_EFF", ColType.string),
   ("ROOF_DESCRIPTION", ColType.string),
   ("ROOF_ENERGY_EFF", ColType.string),
   ("ROOF_ENV_EFF", ColType.string),
   ("MAINHEAT_DESCRIPTION", ColType.string),
   ("MAINHEAT_ENERGY_EFF", ColType.string),
   ("MAINHEAT_ENV_EFF", ColType.string),
   ("MAINHEATCONT_DESCRIPTION", ColType.string),
   ("MAINHEATC_ENERGY_EFF", ColType.string),
   ("MAINHEATC_ENV_EFF", ColType.string),
   ("LIGHTING_DESCRIPTION", ColType.string),
   ("LIGHTING_ENERGY_EFF", ColType.string),
   ("LIGHTING_ENV_EFF", ColType.string),
   ("MAIN_FUEL", ColType.string),
   ("WIND_TURBINE_COUNT", ColType.float64),
   ("HEAT_LOSS_CORRIDOR", ColType.string),
   ("UNHEATED_CORRIDOR_LENGTH", ColType.float64),
   ("FLOOR_HEIGHT", ColType.float64),
   ("PHOTO_SUPPLY", ColType.float64),
   ("SOLAR_WATER_HEATING_FLAG", ColType.string),
   ("MECHANICAL_VENTILATION", ColType.string),
   ("ADDRESS", ColType.string),
   ("LOCAL_AUTHORITY_LABEL", ColType.string),
   ("CONSTITUENCY_LABEL", ColType.string),
   ("POSTTOWN", ColType.string),
   ("CONSTRUCTION_AGE_BAND", ColType.string),
   ("LODGEMENT_DATETIME", ColType.timestampS),
   ("TENURE", ColType.string),
   ("FIXED_LIGHTING_OUTLETS_COUNT", ColType.float64),
   ("LOW_ENERGY_FIXED_LIGHT_COUNT", ColType.float64),
   ("UPRN", ColType.int64),
   ("UPRN_SOURCE", ColType.string)]

/-- The override table for the recommendations dataset, in source order. -/
def RECOMMENDATIONS_SCHEMA : List (String × ColType) :=
  [("LMK_KEY", ColType.string),
   ("IMPROVEMENT_ITEM", ColType.int64),
   ("IMPROVEMENT_SUMMARY_TEXT", ColType.string),
   ("IMPROVEMENT_DESCR_TEXT", ColType.string),
   ("IMPROVEMENT_ID", ColType.int64),
   ("IMPROVEMENT_ID_TEXT", ColType.string),
   ("INDICATIVE_COST", ColType.string)]

/-- A CSV stream holding a single column `c` with the given cell values. -/
def singleColumnCsv (c : String) (vs : List String) : CsvData :=
  ⟨[c], vs.map (fun v => [v])⟩

/-- The filesystem with no directories and no files. -/
def emptyFS : FS := ⟨fun _ => false, fun _ => none⟩

/-- Apply a sequence of file writes in order. -/
def applyWrites (ws : List (String × ParquetFile)) (fs : FS) : FS :=
  ws.foldl (fun a w => writeFile w.1 w.2 a) fs

/-- The last content written to `q` by a write sequence, if any. -/
def lastWrite : List (String × ParquetFile) → String → Option ParquetFile
  | [], _ => none
  | w :: ws, q =>
    match lastWrite ws q with
    | some v => some v
    | none => if q = w.1 then some w.2 else none

/-- Specification of the part files a successful run writes: the `i`-th
converted table goes to part number `n + i`, with dense part numbers in
member order. -/
def partWrites (output_path : String) : ℕ → List Table → List (String × ParquetFile)
  | _, [] => []
  | n, t :: ts => (partPath output_path n, write_table t) :: partWrites output_path (n + 1) ts

/-- Specification of the progress lines a successful run prints for `k`
parts starting at part number `n`. -/
def partLines (output_path : String) : ℕ → ℕ → List String
  | _, 0 => []
  | n, k + 1 => ("Written " ++ partPath output_path n) :: partLines output_path (n + 1) k

/-- Specification of a run over a member sequence as a function of the
inputs alone: the writes performed, the progress lines printed, and the
outcome.  Used to show the run's output content never depends on the
pre-existing filesystem state. -/
def runPlan (schema : Option (List (String × ColType))) (output_path : String) :
    List (String × CsvData) → ℕ →
      List (String × ParquetFile) × List String × Except RunError Unit
  | [], _ => ([], [], .ok ())
  | (_, csv) :: rest, n =>
    match read_csv csv (schema.getD []) with
    | .error e => ([], [], .error (.parseError e))
    | .ok table =>
      let r := runPlan schema output_path rest (n + 1)
      ((partPath output_path n, write_table table) :: r.1,
       ("Written " ++ partPath output_path n) :: r.2.1,
       r.2.2)

/-! ### Helper lemmas -/

theorem globMatch_nil (s : List Char) : globMatch [] s = s.isEmpty := by
  cases s <;> rfl

theorem globMatch_star (l : List Char) : globMatch ['*'] l = true := by
  have h : ([] : List Char) ∈ l.tails := by simp [List.mem_tails]
  show l.tails.any (fun t => globMatch [] t) = true
  rw [List.any_eq_true]
  exact ⟨[], h, rfl⟩

theorem fnmatch_star (s : String) : fnmatch s "*" = true :=
  globMatch_star s.data

theorem fnmatch_question (c : Char) : fnmatch (String.mk [c]) "?" = true := rfl

theorem convertCells_string (name : String) (vs : List String) :
    convertCells name .string vs = .ok (vs.map .str) := by
  induction vs with
  | nil => rfl
  | cons v rest ih => simp [convertCells, parseCell, ih]

theorem convertCells_float64 (name : String) (vs : List String) (qs : List FloatVal)
    (hnn : ∀ v ∈ vs, NULL_VALUES.contains v = false)
    (hp : vs.mapM parseFloat64 = some qs) :
    convertCells name .float64 vs = .ok (qs.map .float) := by
  induction vs generalizing qs with
  | nil =>
    simp only [List.mapM_nil, pure, Option.some.injEq] at hp
    subst hp
    rfl
  | cons v rest ih =>
    rw [List.mapM_cons] at hp
    cases hv : parseFloat64 v with
    | none => rw [hv] at hp; simp at hp
    | some q =>
      rw [hv] at hp
      cases hr : rest.mapM parseFloat64 with
      | none => rw [hr] at hp; simp at hp
      | some qs' =>
        rw [hr] at hp
        simp at hp
        subst hp
        have hnv : v ∉ NULL_VALUES := by simpa using hnn v (by simp)
        have hrest := ih qs' (fun x hx => hnn x (by simp [hx])) hr
        simp [convertCells, parseCell, hnv, hv, hrest]

/-- Evaluate `read_csv` on a single-column stream: it is the conversion of
that one column under its override lookup. -/
theorem read_csv_singleColumn (c : String) (vs : List String)
    (ct : List (String × ColType)) :
    read_csv (singleColumnCsv c vs) ct =
      match convertColumn c vs (List.lookup c ct) with
      | .error e => .error e
      | .ok col => .ok [col] := by
  have hcells : columnCells (singleColumnCsv c vs) 0 = vs := by
    simp only [columnCells, singleColumnCsv, List.map_map]
    have hid : ((fun r : List String => r.getD 0 "") ∘ fun v : String => [v]) = id := by
      funext v
      rfl
    rw [hid, List.map_id]
  have hrect : ((singleColumnCsv c vs).rows.all
      (fun r => r.length = (singleColumnCsv c vs).header.length)) = true := by
    simp [singleColumnCsv, List.all_map]
  rw [read_csv, if_pos (by simpa using hrect)]
  show readColumns (singleColumnCsv c vs) ct 0 [c] = _
  rw [readColumns, hcells]
  cases convertColumn c vs (List.lookup c ct) with
  | error e => rfl
  | ok col => rfl

theorem convertCells_error_of_bad (name : String) (t : ColType) (cells : List String)
    (h : ∃ cell ∈ cells, parseCell t cell = none) :
    ∃ cell ∈ cells, convertCells name t cells = .error (.typeMismatch name cell) ∧
      parseCell t cell = none := by
  induction cells with
  | nil => simp at h
  | cons c cs ih =>
    cases hc : parseCell t c with
    | none => exact ⟨c, by simp, by simp [convertCells, hc], hc⟩
    | some v =>
      obtain ⟨cell, hmem, hbad⟩ := h
      have hcs : cell ∈ cs := by
        rcases List.mem_cons.mp hmem with heq | hcs
        · rw [heq, hc] at hbad
          cases hbad
        · exact hcs
      obtain ⟨cell', hmem', herr, hbad'⟩ := ih ⟨cell, hcs, hbad⟩
      exact ⟨cell', by simp [hmem'], by simp [convertCells, hc, herr], hbad'⟩

theorem convertCells_error_inv (name : String) (t : ColType) (cells : List String)
    (e : ParseError) (h : convertCells name t cells = .error e) :
    ∃ cell ∈ cells, e = .typeMismatch name cell ∧ parseCell t cell = none := by
  induction cells with
  | nil => simp [convertCells] at h
  | cons c cs ih =>
    rw [convertCells] at h
    cases hc : parseCell t c with
    | none =>
      rw [hc] at h
      refine ⟨c, by simp, ?_, hc⟩
      cases h
      rfl
    | some v =>
      rw [hc] at h
      cases hr : convertCells name t cs with
      | error e' =>
        rw [hr] at h
        have he : e = e' := by
          cases h
          rfl
        subst he
        obtain ⟨cell, hmem, heq, hbad⟩ := ih hr
        exact ⟨cell, by simp [hmem], heq, hbad⟩
      | ok vs =>
        rw [hr] at h
        cases h

theorem convertColumn_error_inv (name : String) (cells : List String)
    (ot : Option ColType) (e : ParseError)
    (h : convertColumn name cells ot = .error e) :
    ∃ t, ot = some t ∧ ∃ cell ∈ cells, e = .typeMismatch name cell ∧
      parseCell t cell = none := by
  cases ot with
  | none => simp [convertColumn] at h
  | some t =>
    rw [convertColumn] at h
    cases hcc : convertCells name t cells with
    | ok vs =>
      rw [hcc] at h
      cases h
    | error e' =>
      rw [hcc] at h
      have he : e = e' := by
        cases h
        rfl
      obtain ⟨cell, hmem, heq, hbad⟩ := convertCells_error_inv name t cells e' hcc
      exact ⟨t, rfl, cell, hmem, he ▸ heq, hbad⟩

theorem readColumns_error_of_bad (csv : CsvData) (ct : List (String × ColType))
    (names : List String) :
    ∀ j : ℕ,
      (∃ k, k < names.length ∧ ∃ t, List.lookup (names.getD k "") ct = some t ∧
        ∃ cell ∈ columnCells csv (j + k), parseCell t cell = none) →
      ∃ c v t, readColumns csv ct j names = .error (.typeMismatch c v) ∧
        List.lookup c ct = some t ∧ parseCell t v = none := by
  induction names with
  | nil =>
    intro j h
    obtain ⟨k, hk, _⟩ := h
    simp at hk
  | cons name rest ih =>
    intro j h
    obtain ⟨k, hk, t, hlook, cell, hcell, hbad⟩ := h
    cases hconv : convertColumn name (columnCells csv j) (List.lookup name ct) with
    | error e =>
      obtain ⟨t', hot, cell', hmem', he, hbad'⟩ :=
        convertColumn_error_inv name (columnCells csv j) (List.lookup name ct) e hconv
      refine ⟨name, cell', t', ?_, hot, hbad'⟩
      rw [readColumns, hconv, he]
    | ok col =>
      cases k with
      | zero =>
        exfalso
        have hlook0 : List.lookup name ct = some t := by simpa using hlook
        have hcell0 : cell ∈ columnCells csv j := by simpa using hcell
        obtain ⟨cell₀, hmem₀, herr₀, _⟩ :=
          convertCells_error_of_bad name t (columnCells csv j) ⟨cell, hcell0, hbad⟩
        rw [hlook0, convertColumn, herr₀] at hconv
        cases hconv
      | succ k' =>
        have hk' : k' < rest.length := by
          simpa [Nat.succ_lt_succ_iff] using hk
        have hlook' : List.lookup (rest.getD k' "") ct = some t := by
          simpa using hlook
        have hcell' : cell ∈ columnCells csv (j + 1 + k') := by
          have harith : j + (k' + 1) = j + 1 + k' := by omega
          rw [← harith]
          exact hcell
        obtain ⟨c, v, t₂, hrc, hl, hb⟩ :=
          ih (j + 1) ⟨k', hk', t, hlook', cell, hcell', hbad⟩
        refine ⟨c, v, t₂, ?_, hl, hb⟩
        rw [readColumns, hconv, hrc]

theorem lookup_filter_contains (key : String) (header : List String)
    (l : List (String × ColType)) (hkey : header.contains key = true) :
    List.lookup key (l.filter (fun p => header.contains p.1)) = List.lookup key l := by
  induction l with
  | nil => rfl
  | cons kv rest ih =>
    obtain ⟨k, v⟩ := kv
    by_cases hk : key = k
    · subst hk
      simp only [List.filter_cons, hkey, if_pos]
      simp [List.lookup]
    · have hbeq : (key == k) = false := beq_eq_false_iff_ne.mpr hk
      cases hpred : header.contains k with
      | true =>
        simp only [List.filter_cons, hpred, if_pos]
        simp only [List.lookup, hbeq]
        exact ih
      | false =>
        simp only [List.filter_cons, hpred]
        simp only [Bool.false_eq_true, if_false, List.lookup, hbeq]
        exact ih

theorem readColumns_filter_congr (csv : CsvData) (ct : List (String × ColType))
    (names : List String) :
    ∀ j : ℕ, (∀ name ∈ names, csv.header.contains name = true) →
      readColumns csv (ct.filter (fun p => csv.header.contains p.1)) j names =
        readColumns csv ct j names := by
  induction names with
  | nil =>
    intro j h
    rfl
  | cons name rest ih =>
    intro j h
    simp only [readColumns]
    rw [lookup_filter_contains name csv.header ct (h name (by simp)),
      ih (j + 1) (fun x hx => h x (by simp [hx]))]

theorem applyWrites_nil (fs : FS) : applyWrites [] fs = fs := rfl

theorem applyWrites_cons (w : String × ParquetFile) (ws : List (String × ParquetFile))
    (fs : FS) : applyWrites (w :: ws) fs = applyWrites ws (writeFile w.1 w.2 fs) := rfl

theorem applyWrites_dirs (ws : List (String × ParquetFile)) :
    ∀ fs : FS, (applyWrites ws fs).dirs = fs.dirs := by
  induction ws with
  | nil => intro fs; rfl
  | cons w ws ih =>
    intro fs
    rw [applyWrites_cons, ih]
    rfl

theorem applyWrites_files (ws : List (String × ParquetFile)) :
    ∀ (fs : FS) (q : String), (applyWrites ws fs).files q =
      match lastWrite ws q with
      | some v => some v
      | none => fs.files q := by
  induction ws with
  | nil => intro fs q; rfl
  | cons w ws ih =>
    intro fs q
    rw [applyWrites_cons, ih]
    show _ = (match (match lastWrite ws q with
      | some v => some v
      | none => if q = w.1 then some w.2 else none) with
      | some v => some v
      | none => fs.files q)
    cases lastWrite ws q with
    | some v => rfl
    | none =>
      show (writeFile w.1 w.2 fs).files q = _
      by_cases hq : q = w.1
      · simp [writeFile, hq]
      · simp [writeFile, hq]

theorem applyWrites_idem (ws : List (String × ParquetFile)) (fs : FS) :
    applyWrites ws (applyWrites ws fs) = applyWrites ws fs := by
  apply FS.ext
  · rw [applyWrites_dirs, applyWrites_dirs]
  · funext q
    rw [applyWrites_files, applyWrites_files]
    cases lastWrite ws q with
    | some v => rfl
    | none => rfl

theorem makedirs_idem (p : String) (fs : FS) : makedirs p (makedirs p fs) = makedirs p fs := by
  apply FS.ext
  · funext d
    show (decide (d = p) || (pathAncestors p).contains d ||
        (decide (d = p) || (pathAncestors p).contains d || fs.dirs d)) =
      (decide (d = p) || (pathAncestors p).contains d || fs.dirs d)
    generalize decide (d = p) = a
    generalize (pathAncestors p).contains d = b
    generalize fs.dirs d = c
    cases a <;> cases b <;> cases c <;> rfl
  · rfl

theorem makedirs_applyWrites_comm (p : String) (ws : List (String × ParquetFile)) :
    ∀ fs : FS, makedirs p (applyWrites ws fs) = applyWrites ws (makedirs p fs) := by
  induction ws with
  | nil => intro fs; rfl
  | cons w ws ih =>
    intro fs
    rw [applyWrites_cons, applyWrites_cons, ih]
    rfl

theorem makedirs_dirs_self (p : String) (fs : FS) : (makedirs p fs).dirs p = true := by
  simp [makedirs]

theorem convertLoop_eq_runPlan (sch : Option (List (String × ColType))) (out : String) :
    ∀ (ms : List (String × CsvData)) (n : ℕ) (fs : FS),
      convertLoop sch out ms n fs =
        (applyWrites (runPlan sch out ms n).1 fs,
         (runPlan sch out ms n).2.1, (runPlan sch out ms n).2.2) := by
  intro ms
  induction ms with
  | nil =>
    intro n fs
    rfl
  | cons m rest ih =>
    intro n fs
    obtain ⟨name, csv⟩ := m
    rw [convertLoop, runPlan]
    cases hr : read_csv csv (sch.getD []) with
    | error e => simp [csv_to_parquet, hr, applyWrites_nil]
    | ok table =>
      simp only [csv_to_parquet, hr, ih, applyWrites_cons]

theorem mapM_option_length {α β : Type} (f : α → Option β) :
    ∀ (l : List α) (l' : List β), l.mapM f = some l' → l'.length = l.length := by
  intro l
  induction l with
  | nil =>
    intro l' h
    simp only [List.mapM_nil, pure, Option.some.injEq] at h
    rw [← h]
    rfl
  | cons a as ih =>
    intro l' h
    rw [List.mapM_cons] at h
    cases hf : f a with
    | none => rw [hf] at h; simp at h
    | some b =>
      rw [hf] at h
      cases hr : as.mapM f with
      | none => rw [hr] at h; simp at h
      | some bs =>
        rw [hr] at h
        simp at h
        rw [← h]
        simp [List.length_cons, ih bs hr]

theorem runPlan_ok (sch : Option (List (String × ColType))) (out : String) :
    ∀ (ms : List (String × CsvData)) (tables : List Table) (n : ℕ),
      ms.mapM (fun m => (read_csv m.2 (sch.getD [])).toOption) = some tables →
      runPlan sch out ms n =
        (partWrites out n tables, partLines out n tables.length, .ok ()) := by
  intro ms
  induction ms with
  | nil =>
    intro tables n h
    simp only [List.mapM_nil, pure, Option.some.injEq] at h
    rw [← h]
    rfl
  | cons m rest ih =>
    intro tables n h
    obtain ⟨name, csv⟩ := m
    rw [List.mapM_cons] at h
    cases hr : read_csv csv (sch.getD []) with
    | error e => rw [hr] at h; simp [Except.toOption] at h
    | ok table =>
      rw [hr] at h
      cases hrest : rest.mapM (fun m => (read_csv m.2 (sch.getD [])).toOption) with
      | none => rw [hrest] at h; simp [Except.toOption] at h
      | some tables' =>
        rw [hrest] at h
        simp [Except.toOption] at h
        rw [← h]
        rw [runPlan, hr, ih tables' (n + 1) hrest]
        rfl

theorem runPlan_append_error (sch : Option (List (String × ColType))) (out : String) :
    ∀ (pre : List (String × CsvData)) (tables : List Table)
      (bad : String × CsvData) (post : List (String × CsvData))
      (e : ParseError) (n : ℕ),
      pre.mapM (fun m => (read_csv m.2 (sch.getD [])).toOption) = some tables →
      read_csv bad.2 (sch.getD []) = .error e →
      runPlan sch out (pre ++ bad :: post) n =
        (partWrites out n tables, partLines out n tables.length,
         .error (.parseError e)) := by
  intro pre
  induction pre with
  | nil =>
    intro tables bad post e n hpre hbad
    simp only [List.mapM_nil, pure, Option.some.injEq] at hpre
    rw [← hpre]
    obtain ⟨bname, bcsv⟩ := bad
    simp only [List.nil_append]
    rw [runPlan]
    rw [show read_csv bcsv (sch.getD []) = .error e from hbad]
    rfl
  | cons m rest ih =>
    intro tables bad post e n hpre hbad
    obtain ⟨name, csv⟩ := m
    rw [List.mapM_cons] at hpre
    cases hr : read_csv csv (sch.getD []) with
    | error e' => rw [hr] at hpre; simp [Except.toOption] at hpre
    | ok table =>
      rw [hr] at hpre
      cases hrest : rest.mapM (fun m => (read_csv m.2 (sch.getD [])).toOption) with
      | none => rw [hrest] at hpre; simp [Except.toOption] at hpre
      | some tables' =>
        rw [hrest] at hpre
        simp [Except.toOption] at hpre
        rw [← hpre]
        rw [List.cons_append, runPlan, hr, ih tables' bad post e (n + 1) hrest hbad]
        rfl

/-- Unfold `convert_files` on a valid archive to the plan of its matching
members: the writes are applied to the filesystem after the output directory
is created, and the printed lines and outcome are those of the plan. -/
theorem convert_files_valid_spec (members : List (String × CsvData)) (pattern : String)
    (sch : Option (List (String × ColType))) (out : String) (fs : FS) :
    convert_files (.valid members) pattern sch out fs =
      (applyWrites
        (runPlan sch out (members.filter (fun m => fnmatch m.1 pattern)) 0).1
        (makedirs out fs),
       (runPlan sch out (members.filter (fun m => fnmatch m.1 pattern)) 0).2.1,
       (runPlan sch out (members.filter (fun m => fnmatch m.1 pattern)) 0).2.2) := by
  rw [convert_files]
  exact convertLoop_eq_runPlan sch out (members.filter (fun m => fnmatch m.1 pattern))
    0 (makedirs out fs)

theorem pad3_length (n : ℕ) : 3 ≤ (pad3 n).length := by
  rw [pad3]
  show 3 ≤ (String.mk (List.replicate (3 - (toString n).length) '0') ++ toString n).length
  rw [String.length_append]
  show 3 ≤ (List.replicate (3 - (toString n).length) '0').length + (toString n).length
  rw [List.length_replicate]
  omega

/-! ### Claim theorems -/

/-- C1: for every CSV stream carrying a column `c` overridden to float64 in
the override table, whose values are floating-point-looking text (non-null
cells that the float parser accepts, such as `"1.0"` and `"2.0"`),
`csv_to_parquet` parses the column without error into a float64 column
holding the corresponding floating-point values: the override's declared
type governs parsing, not the documentation-implied integer type. -/
theorem float64_override_parses_float_text
    (c : String) (vs : List String) (qs : List FloatVal)
    (ct : List (String × ColType)) (path : String) (fs : FS)
    (hct : List.lookup c ct = some .float64)
    (hnn : ∀ v ∈ vs, NULL_VALUES.contains v = false)
    (hp : vs.mapM parseFloat64 = some qs) :
    convertColumn c vs (List.lookup c ct) = .ok ⟨c, .float64, qs.map .float⟩ ∧
    csv_to_parquet (singleColumnCsv c vs) path (some ct) fs =
      .ok (writeFile path (write_table [⟨c, .float64, qs.map .float⟩]) fs) := by
  have hcol : convertColumn c vs (List.lookup c ct) =
      .ok ⟨c, .float64, qs.map .float⟩ := by
    rw [hct]
    simp [convertColumn, convertCells_float64 c vs qs hnn hp]
  refine ⟨hcol, ?_⟩
  rw [csv_to_parquet]
  simp only [Option.getD_some]
  rw [read_csv_singleColumn, hcol]

/-- Witness for C1: the schema overrides `MULTI_GLAZE_PROPORTION` (documented
as integer) to float64, and the stream `["1.0", "2.0"]` converts without
error to the float64 column `[1.0, 2.0]`. -/
theorem float64_override_parses_float_text_witness :
    csv_to_parquet (singleColumnCsv "MULTI_GLAZE_PROPORTION" ["1.0", "2.0"])
        "out/certificates/part-000.parquet" (some CERTIFICATE_SCHEMA) emptyFS =
      .ok (writeFile "out/certificates/part-000.parquet"
        (write_table [⟨"MULTI_GLAZE_PROPORTION", .float64,
          [.float (.finite 1 0), .float (.finite 2 0)]⟩]) emptyFS) :=
  (float64_override_parses_float_text "MULTI_GLAZE_PROPORTION" ["1.0", "2.0"]
    [.finite 1 0, .finite 2 0] CERTIFICATE_SCHEMA
    "out/certificates/part-000.parquet" emptyFS
    (by decide) (by decide) (by decide)).2

/-- C2: for every CSV stream carrying a column `c` overridden to string whose
values all look numeric (such as the identifier `"000123"`), the table
produced by `csv_to_parquet` and read back from the written parquet file has
that column string-typed with every value textually unchanged, leading zeros
included; the column is never coerced to a numeric type by inference. -/
theorem string_override_preserves_text
    (c : String) (vs : List String) (ct : List (String × ColType))
    (path : String) (fs : FS)
    (hct : List.lookup c ct = some .string)
    (hnum : ∀ v ∈ vs, (parseInt64 v).isSome = true) :
    convertColumn c vs (List.lookup c ct) = .ok ⟨c, .string, vs.map .str⟩ ∧
    csv_to_parquet (singleColumnCsv c vs) path (some ct) fs =
      .ok (writeFile path (write_table [⟨c, .string, vs.map .str⟩]) fs) ∧
    ((writeFile path (write_table [⟨c, .string, vs.map .str⟩]) fs).files path).map
        read_table = some [⟨c, .string, vs.map .str⟩] := by
  have hcol : convertColumn c vs (List.lookup c ct) =
      .ok ⟨c, .string, vs.map .str⟩ := by
    rw [hct]
    simp [convertColumn, convertCells_string]
  refine ⟨hcol, ?_, ?_⟩
  · rw [csv_to_parquet]
    simp only [Option.getD_some]
    rw [read_csv_singleColumn, hcol]
  · simp [writeFile, read_table, write_table]

/-- Witness for C2: the schema overrides `LMK_KEY` to string, and the
numeric-looking identifier `"000123"` survives the write/read round trip
as the unchanged text `"000123"` in a string-typed column. -/
theorem string_override_preserves_text_witness :
    csv_to_parquet (singleColumnCsv "LMK_KEY" ["000123"])
        "out/certificates/part-000.parquet" (some CERTIFICATE_SCHEMA) emptyFS =
      .ok (writeFile "out/certificates/part-000.parquet"
        (write_table [⟨"LMK_KEY", .string, [.str "000123"]⟩]) emptyFS) ∧
    ((writeFile "out/certificates/part-000.parquet"
        (write_table [⟨"LMK_KEY", .string, [.str "000123"]⟩]) emptyFS).files
        "out/certificates/part-000.parquet").map read_table =
      some [⟨"LMK_KEY", .string, [.str "000123"]⟩] :=
  ⟨(string_override_preserves_text "LMK_KEY" ["000123"] CERTIFICATE_SCHEMA
      "out/certificates/part-000.parquet" emptyFS (by decide) (by decide)).2.1,
   (string_override_preserves_text "LMK_KEY" ["000123"] CERTIFICATE_SCHEMA
      "out/certificates/part-000.parquet" emptyFS (by decide) (by decide)).2.2⟩

/-- C3: for every rectangular CSV stream containing, in a column named in
the overrides, at least one value that cannot be coerced to the declared
type, `csv_to_parquet` fails for the whole file with an error naming an
offending overridden column and its unparseable value, rather than skipping
rows or falling back to another type; the result is never a written file. -/
theorem overridden_column_bad_value_fails
    (csv : CsvData) (ct : List (String × ColType)) (path : String) (fs : FS)
    (hrect : csv.rows.all (fun r => r.length = csv.header.length) = true)
    (hbad : ∃ k, k < csv.header.length ∧ ∃ t,
        List.lookup (csv.header.getD k "") ct = some t ∧
        ∃ cell ∈ columnCells csv k, parseCell t cell = none) :
    ∃ c v t, csv_to_parquet csv path (some ct) fs = .error (.typeMismatch c v) ∧
      List.lookup c ct = some t ∧ parseCell t v = none ∧
      ∀ fs', csv_to_parquet csv path (some ct) fs ≠ .ok fs' := by
  have hbad0 : ∃ k, k < csv.header.length ∧ ∃ t,
      List.lookup (csv.header.getD k "") ct = some t ∧
      ∃ cell ∈ columnCells csv (0 + k), parseCell t cell = none := by
    obtain ⟨k, hk, t, hl, cell, hc, hb⟩ := hbad
    exact ⟨k, hk, t, hl, cell, by simpa using hc, hb⟩
  obtain ⟨c, v, t, hrc, hl, hb⟩ := readColumns_error_of_bad csv ct csv.header 0 hbad0
  have herr : csv_to_parquet csv path (some ct) fs = .error (.typeMismatch c v) := by
    rw [csv_to_parquet]
    simp only [Option.getD_some]
    rw [read_csv, if_pos hrect, hrc]
  refine ⟨c, v, t, herr, hl, hb, ?_⟩
  intro fs' hok
  rw [herr] at hok
  cases hok

/-- Witness for C3: a certificates shard whose `BUILDING_REFERENCE_NUMBER`
column (overridden to int64) holds the unparseable value `"not-a-number"`
makes the conversion fail with a type mismatch; no file is written. -/
theorem overridden_column_bad_value_fails_witness :
    ∃ c v t,
      csv_to_parquet ⟨["BUILDING_REFERENCE_NUMBER"], [["not-a-number"]]⟩
          "out/certificates/part-000.parquet" (some CERTIFICATE_SCHEMA) emptyFS =
        .error (.typeMismatch c v) ∧
      List.lookup c CERTIFICATE_SCHEMA = some t ∧ parseCell t v = none ∧
      ∀ fs', csv_to_parquet ⟨["BUILDING_REFERENCE_NUMBER"], [["not-a-number"]]⟩
          "out/certificates/part-000.parquet" (some CERTIFICATE_SCHEMA) emptyFS ≠
        .ok fs' :=
  overridden_column_bad_value_fails
    ⟨["BUILDING_REFERENCE_NUMBER"], [["not-a-number"]]⟩ CERTIFICATE_SCHEMA
    "out/certificates/part-000.parquet" emptyFS (by decide)
    ⟨0, by decide, .int64, by decide, "not-a-number", by decide, by decide⟩

/-- C4: for every CSV stream and every override table, override keys that
name columns absent from the stream's header are silently inert:
`csv_to_parquet` behaves identically — same table, same errors, no error
caused by the unmatched keys — to a run with those keys removed from the
overrides. -/
theorem unmatched_override_keys_inert
    (csv : CsvData) (ct : List (String × ColType)) (path : String) (fs : FS) :
    csv_to_parquet csv path (some ct) fs =
      csv_to_parquet csv path
        (some (ct.filter (fun p => csv.header.contains p.1))) fs := by
  have hcong := readColumns_filter_congr csv ct csv.header 0
    (fun name hname => List.elem_eq_true_of_mem hname)
  rw [csv_to_parquet, csv_to_parquet]
  simp only [Option.getD_some]
  rw [read_csv, read_csv]
  by_cases h : csv.rows.all (fun r => r.length = csv.header.length) = true
  · rw [if_pos h, if_pos h, hcong]
  · rw [if_neg h, if_neg h]

/-- C5: for every readable zip archive and glob pattern, `open_files` yields
exactly one readable byte stream per archive member whose full internal path
matches the pattern, in the archive's listing order (with `*` matching any
run of characters including path separators and `?` matching one character),
and yields an empty sequence — not an error — when no member matches. -/
theorem open_files_yields_matching_members
    (members : List (String × CsvData)) (pattern : String) :
    open_files (.valid members) pattern
        = .ok (members.filter (fun m => fnmatch m.1 pattern)) ∧
    (∀ m, m ∈ members.filter (fun m => fnmatch m.1 pattern) ↔
        m ∈ members ∧ fnmatch m.1 pattern = true) ∧
    (∀ s : String, fnmatch s "*" = true) ∧
    (∀ c : Char, fnmatch (String.mk [c]) "?" = true) ∧
    (members.filter (fun m => fnmatch m.1 pattern) = [] →
        open_files (.valid members) pattern = .ok []) := by
  refine ⟨rfl, ?_, fnmatch_star, fnmatch_question, ?_⟩
  · intro m
    simp [List.mem_filter]
  · intro h
    show Except.ok (members.filter (fun m => fnmatch m.1 pattern)) = .ok []
    rw [h]

/-- Witness for C5 on the repository's own fixture archive: the certificates
pattern selects exactly the two certificates members, in listing order. -/
theorem open_files_yields_matching_members_witness :
    open_files
        (.valid
          [("authority-1/certificates.csv", ⟨["A"], [["1"]]⟩),
           ("authority-1/recommendations.csv", ⟨["B"], [["2"]]⟩),
           ("authority-2/certificates.csv", ⟨["A"], [["3"]]⟩),
           ("authority-2/recommendations.csv", ⟨["B"], [["4"]]⟩)])
        "*/certificates.csv" =
      .ok
        [("authority-1/certificates.csv", ⟨["A"], [["1"]]⟩),
         ("authority-2/certificates.csv", ⟨["A"], [["3"]]⟩)] := by
  have h := (open_files_yields_matching_members
      [("authority-1/certificates.csv", ⟨["A"], [["1"]]⟩),
       ("authority-1/recommendations.csv", ⟨["B"], [["2"]]⟩),
       ("authority-2/certificates.csv", ⟨["A"], [["3"]]⟩),
       ("authority-2/recommendations.csv", ⟨["B"], [["4"]]⟩)]
      "*/certificates.csv").1
  rw [h]
  decide

/-- C6: for every input that is not a readable, structurally valid zip
container, `open_files` fails with an I/O failure and yields no member
stream: the error precedes the first element of the sequence. -/
theorem open_files_invalid_zip_fails (pattern : String) :
    open_files .invalid pattern = .error .badZipFile ∧
    ∀ streams, open_files .invalid pattern ≠ .ok streams := by
  refine ⟨rfl, ?_⟩
  intro streams h
  exact absurd h (by simp [open_files])

/-- Witness for C6 at the certificates pattern. -/
theorem open_files_invalid_zip_fails_witness :
    open_files .invalid "*/certificates.csv" = .error .badZipFile :=
  (open_files_invalid_zip_fails "*/certificates.csv").1

/-- C7: for every run of `convert_files` over an archive whose pattern
matches `k` members, all of which convert successfully, the output files
written are exactly `part-000.parquet` through `part-(k-1).parquet` under
the output path — indices dense, starting at 0, zero-padded to at least 3
digits, assigned in member enumeration order — and each part holds only the
table converted from its own member, with no cross-shard merging. -/
theorem convert_files_dense_parts
    (members : List (String × CsvData)) (pattern : String)
    (sch : Option (List (String × ColType))) (out : String) (fs : FS)
    (tables : List Table)
    (hok : (members.filter (fun m => fnmatch m.1 pattern)).mapM
        (fun m => (read_csv m.2 (sch.getD [])).toOption) = some tables) :
    convert_files (.valid members) pattern sch out fs =
      (applyWrites (partWrites out 0 tables) (makedirs out fs),
       partLines out 0 tables.length, .ok ()) ∧
    tables.length = (members.filter (fun m => fnmatch m.1 pattern)).length ∧
    (∀ n : ℕ, 3 ≤ (pad3 n).length) := by
  refine ⟨?_, ?_, pad3_length⟩
  · rw [convert_files_valid_spec,
      runPlan_ok sch out (members.filter (fun m => fnmatch m.1 pattern)) tables 0 hok]
  · exact mapM_option_length _ _ tables hok

/-- Witness for C7: a two-shard archive produces exactly
`part-000.parquet` and `part-001.parquet`, in shard order, each holding only
its own shard's rows. -/
theorem convert_files_dense_parts_witness :
    convert_files
        (.valid
          [("authority-1/certificates.csv", ⟨["A"], [["1"]]⟩),
           ("authority-2/certificates.csv", ⟨["A"], [["2"]]⟩)])
        "*/certificates.csv" (some [("A", ColType.int64)]) "out/certificates" emptyFS =
      (applyWrites
        (partWrites "out/certificates" 0
          [[⟨"A", .int64, [.int 1]⟩], [⟨"A", .int64, [.int 2]⟩]])
        (makedirs "out/certificates" emptyFS),
       partLines "out/certificates" 0
         ([[⟨"A", ColType.int64, [.int 1]⟩], [⟨"A", ColType.int64, [.int 2]⟩]] :
           List Table).length,
       .ok ()) ∧
    (partWrites "out/certificates" 0
        ([[⟨"A", .int64, [.int 1]⟩], [⟨"A", .int64, [.int 2]⟩]] : List Table)).map
        Prod.fst =
      ["out/certificates/part-000.parquet", "out/certificates/part-001.parquet"] ∧
    partLines "out/certificates" 0 2 =
      ["Written out/certificates/part-000.parquet",
       "Written out/certificates/part-001.parquet"] :=
  ⟨(convert_files_dense_parts
      [("authority-1/certificates.csv", ⟨["A"], [["1"]]⟩),
       ("authority-2/certificates.csv", ⟨["A"], [["2"]]⟩)]
      "*/certificates.csv" (some [("A", ColType.int64)]) "out/certificates" emptyFS
      [[⟨"A", .int64, [.int 1]⟩], [⟨"A", .int64, [.int 2]⟩]] (by decide)).1,
   by decide, by decide⟩

/-- C8: if conversion of one member fails, `convert_files` aborts the whole
run at that member: exactly the parts of the preceding members are written
(and announced), the failing member's error is the run's outcome, no later
member is converted, and the filesystem keeps every earlier part untouched —
no cleanup or rollback of partial output. -/
theorem convert_files_aborts_on_failure
    (members : List (String × CsvData)) (pattern : String)
    (sch : Option (List (String × ColType))) (out : String) (fs : FS)
    (pre : List (String × CsvData)) (bad : String × CsvData)
    (post : List (String × CsvData)) (tables : List Table) (e : ParseError)
    (hsplit : members.filter (fun m => fnmatch m.1 pattern) = pre ++ bad :: post)
    (hpre : pre.mapM (fun m => (read_csv m.2 (sch.getD [])).toOption) = some tables)
    (hbad : read_csv bad.2 (sch.getD []) = .error e) :
    convert_files (.valid members) pattern sch out fs =
      (applyWrites (partWrites out 0 tables) (makedirs out fs),
       partLines out 0 tables.length, .error (.parseError e)) := by
  rw [convert_files_valid_spec, hsplit,
    runPlan_append_error sch out pre tables bad post e 0 hpre hbad]

/-- Witness for C8: with a good first shard and a second shard whose `A`
column cannot be coerced to int64, the run writes `part-000.parquet` only,
then aborts with the second shard's type mismatch, leaving the first part
on disk. -/
theorem convert_files_aborts_on_failure_witness :
    convert_files
        (.valid
          [("authority-1/certificates.csv", ⟨["A"], [["1"]]⟩),
           ("authority-2/certificates.csv", ⟨["A"], [["oops"]]⟩)])
        "*/certificates.csv" (some [("A", ColType.int64)]) "out/certificates" emptyFS =
      (applyWrites (partWrites "out/certificates" 0 [[⟨"A", .int64, [.int 1]⟩]])
        (makedirs "out/certificates" emptyFS),
       partLines "out/certificates" 0 1,
       .error (.parseError (.typeMismatch "A" "oops"))) :=
  convert_files_aborts_on_failure
    [("authority-1/certificates.csv", ⟨["A"], [["1"]]⟩),
     ("authority-2/certificates.csv", ⟨["A"], [["oops"]]⟩)]
    "*/certificates.csv" (some [("A", ColType.int64)]) "out/certificates" emptyFS
    [("authority-1/certificates.csv", ⟨["A"], [["1"]]⟩)]
    ("authority-2/certificates.csv", ⟨["A"], [["oops"]]⟩)
    [] [[⟨"A", .int64, [.int 1]⟩]] (.typeMismatch "A" "oops")
    (by decide) (by decide) (by decide)

/-- C9: for every archive and output root, running the full pipeline a
second time over the state left by the first run reproduces the first run
exactly — identical part-file contents on disk, identical progress lines,
identical outcome.  The run's output is a deterministic function of the
archive contents: no timestamp, random identifier or ordering choice enters
the model, and rewriting the same parts leaves the filesystem unchanged. -/
theorem pipeline_rerun_identical
    (z : ZipSource) (pattern : String) (sch : Option (List (String × ColType)))
    (out : String) (fs : FS) :
    convert_files z pattern sch out ((convert_files z pattern sch out fs).1) =
      convert_files z pattern sch out fs := by
  cases z with
  | invalid =>
    show (makedirs out (makedirs out fs), ([] : List String),
        (Except.error (RunError.ioError IOError.badZipFile) : Except RunError Unit)) =
      (makedirs out fs, ([] : List String),
        (Except.error (RunError.ioError IOError.badZipFile) : Except RunError Unit))
    rw [makedirs_idem]
  | valid members =>
    rw [convert_files_valid_spec members pattern sch out fs]
    rw [convert_files_valid_spec members pattern sch out
      (applyWrites (runPlan sch out (members.filter (fun m => fnmatch m.1 pattern)) 0).1
        (makedirs out fs))]
    rw [makedirs_applyWrites_comm, makedirs_idem, applyWrites_idem]

/-- C10: for every invocation of `convert_files` — archive valid or not,
pattern matching zero members or more — the output directory and its
ancestors exist after the call: directory creation happens unconditionally
before any member is consumed and succeeds silently if the directory already
exists; an empty dataset leaves an existing output directory with no file
written, no line printed, and a successful outcome. -/
theorem convert_files_creates_output_dir
    (z : ZipSource) (pattern : String) (sch : Option (List (String × ColType)))
    (out : String) (fs : FS) :
    (convert_files z pattern sch out fs).1.dirs out = true ∧
    (∀ a ∈ pathAncestors out, (convert_files z pattern sch out fs).1.dirs a = true) ∧
    (∀ members, z = .valid members →
      members.filter (fun m => fnmatch m.1 pattern) = [] →
      (convert_files z pattern sch out fs).1.files = fs.files ∧
      (convert_files z pattern sch out fs).2.1 = [] ∧
      (convert_files z pattern sch out fs).2.2 = .ok ()) := by
  have hdirs : (convert_files z pattern sch out fs).1.dirs = (makedirs out fs).dirs := by
    cases z with
    | invalid => rfl
    | valid members =>
      rw [convert_files_valid_spec, applyWrites_dirs]
  refine ⟨?_, ?_, ?_⟩
  · rw [hdirs]
    exact makedirs_dirs_self out fs
  · intro a ha
    rw [hdirs]
    show (decide (a = out) || (pathAncestors out).contains a || fs.dirs a) = true
    have hc : (pathAncestors out).contains a = true := List.elem_eq_true_of_mem ha
    rw [hc]
    cases decide (a = out) <;> rfl
  · intro members hz hempty
    subst hz
    rw [convert_files_valid_spec, hempty]
    exact ⟨rfl, rfl, rfl⟩

/-- Witness for C10: converting an archive with no matching member still
creates the output directory and its ancestor, writes nothing, and
succeeds. -/
theorem convert_files_creates_output_dir_witness :
    (convert_files (.valid []) "*/certificates.csv" none "out/certificates"
        emptyFS).1.dirs "out/certificates" = true ∧
    (convert_files (.valid []) "*/certificates.csv" none "out/certificates"
        emptyFS).1.dirs "out" = true ∧
    (convert_files (.valid []) "*/certificates.csv" none "out/certificates"
        emptyFS).2.2 = .ok () :=
  ⟨(convert_files_creates_output_dir (.valid []) "*/certificates.csv" none
      "out/certificates" emptyFS).1,
   (convert_files_creates_output_dir (.valid []) "*/certificates.csv" none
      "out/certificates" emptyFS).2.1 "out" (by decide),
   ((convert_files_creates_output_dir (.valid []) "*/certificates.csv" none
      "out/certificates" emptyFS).2.2 [] rfl (by decide)).2.2⟩

end Epc
